import Mathlib

/-!
Verification development for the MoreMoreLove relationship-simulation plugin.

The definitions below are a shallow embedding of the plugin's core logic:
the per-user `PlayerState` record, the bounded-delta arithmetic
(`clamp`, `applyActionOutcome`), history bookkeeping (`capHistory`,
`recordIntimacySession`), the per-action pipeline (`handleAction`), the AI
engine's degraded-output normalization (`generateActionOutcomeAI`), the
weather cache (`getWeather`), the history excerpt builder
(`historyExcerpt`), and a reference-aliasing model of `PlayerState.copy`
(`copyState`).  Python `int` is modelled by `Int`, Python lists by `List`,
and Python dicts keyed by strings by functions `String → Option _`.
-/

namespace MoreMoreLove

/-- `MAX_FAVORABILITY = 200` from the source. -/
def MAX_FAVORABILITY : Int := 200

/-- `MIN_FAVORABILITY = 0` from the source. -/
def MIN_FAVORABILITY : Int := 0

/-- `HISTORY_LIMIT = 12` from the source. -/
def HISTORY_LIMIT : Nat := 12

/-- `clamp(value, minimum, maximum) = max(minimum, min(maximum, value))`. -/
def clamp (value minimum maximum : Int) : Int :=
  max minimum (min maximum value)

/-- One entry of `PlayerState.history`.  In the source each entry is a dict
with exactly these keys (written by `_apply_action_outcome` and
`_record_intimacy_session`). -/
structure HistoryEntry where
  timestamp : String
  action : String
  narration : String
  delta : Int
  mood : String
  feedback : String
deriving DecidableEq, Repr

/-- The per-user `PlayerState` dataclass with its field defaults. -/
structure PlayerState where
  favorability : Int := 50
  in_gal_mode : Bool := false
  intimacy_unlocked : Bool := false
  intimacy_sessions : Nat := 0
  last_action : Option String := none
  history : List HistoryEntry := []
  pure_mode : Bool := false
deriving DecidableEq, Repr

/-- The transient outcome dict produced by either behavior engine, after
normalization: keys `narration`, `favorability_delta`, `mood`,
`player_feedback`, `intimacy_signal`. -/
structure ActionOutcome where
  narration : String
  favorability_delta : Int
  mood : String
  player_feedback : String
  intimacy_signal : Bool
deriving DecidableEq, Repr

/-- Python's `l[-n:]`: the last `n` elements of a list. -/
def takeLast (n : Nat) (l : List α) : List α :=
  l.drop (l.length - n)

/-- The history-capping idiom used after each append:
`if len(h) > HISTORY_LIMIT: h = h[-HISTORY_LIMIT:]`. -/
def capHistory (h : List HistoryEntry) : List HistoryEntry :=
  if h.length > HISTORY_LIMIT then takeLast HISTORY_LIMIT h else h

/-- The record appended to history by `_apply_action_outcome`; `delta` is the
value already clamped to `[-20, 20]`. -/
def actionRecord (timestamp actionText : String) (outcome : ActionOutcome)
    (delta : Int) : HistoryEntry :=
  ⟨timestamp, actionText, outcome.narration, delta, outcome.mood,
    outcome.player_feedback⟩

/-- The `mutate` closure of `MoreMoreLovePlugin._apply_action_outcome`:
clamp the engine delta to `[-20, 20]`, clamp the favorability sum to
`[0, 200]`, append a history record (capping at 12), set `last_action`,
and latch `intimacy_unlocked` on `pure_mode` or on reaching the maximum.
Returns the new state together with the value the code returns as the
applied delta (the Python `return delta`). -/
def applyActionOutcome (s : PlayerState) (timestamp actionText : String)
    (outcome : ActionOutcome) : PlayerState × Int :=
  let delta := clamp outcome.favorability_delta (-20) 20
  let newValue := clamp (s.favorability + delta) MIN_FAVORABILITY MAX_FAVORABILITY
  let record := actionRecord timestamp actionText outcome delta
  let history1 := capHistory (s.history ++ [record])
  let unlocked1 := if s.pure_mode then true else s.intimacy_unlocked
  let unlocked2 := if MAX_FAVORABILITY ≤ newValue then true else unlocked1
  ({ s with
      favorability := newValue
      last_action := some actionText
      history := history1
      intimacy_unlocked := unlocked2 }, delta)

/-- The record appended by `_record_intimacy_session`. -/
def intimacyRecord (timestamp narrationText hero : String) : HistoryEntry :=
  ⟨timestamp, "[情趣系统互动]", narrationText, 0, "intimacy",
    hero ++ "与你共同沉浸在亲密时光中。"⟩

/-- `MoreMoreLovePlugin._record_intimacy_session`: latch the unlock flag,
bump `intimacy_sessions`, set `last_action`, append a zero-delta history
record, and cap the history at 12. -/
def recordIntimacySession (s : PlayerState) (timestamp narrationText hero : String) :
    PlayerState :=
  { s with
      intimacy_unlocked := true
      intimacy_sessions := s.intimacy_sessions + 1
      last_action := some "情趣系统互动"
      history := capHistory (s.history ++ [intimacyRecord timestamp narrationText hero]) }

/-- The `galstart` mutator. -/
def galStartMutate (hero : String) (s : PlayerState) : PlayerState :=
  if s.in_gal_mode then s
  else { s with in_gal_mode := true, last_action := some ("开启" ++ hero ++ "的 Gal 模式") }

/-- The `galexit` mutator. -/
def galExitMutate (s : PlayerState) : PlayerState :=
  if s.in_gal_mode then { s with in_gal_mode := false } else s

/-- The `galpure on` mutator. -/
def galPureOnMutate (s : PlayerState) : PlayerState :=
  { s with pure_mode := true, in_gal_mode := true }

/-- The `galpure off` mutator. -/
def galPureOffMutate (s : PlayerState) : PlayerState :=
  { s with pure_mode := false }

/-- `galreset` replaces the record with a fresh `PlayerState()`. -/
def galResetState : PlayerState := {}

/-- Sequential application of engine outcomes through
`_apply_action_outcome`; each element carries a timestamp, an action text
and an outcome. -/
def runOutcomes (s : PlayerState) : List (String × String × ActionOutcome) → PlayerState
  | [] => s
  | (ts, a, o) :: rest => runOutcomes (applyActionOutcome s ts a o).1 rest

/- ### Basic lemmas -/

theorem clamp_le (value minimum maximum : Int) (h : minimum ≤ maximum) :
    clamp value minimum maximum ≤ maximum := by
  unfold clamp
  exact max_le h (min_le_left _ _)

theorem le_clamp (value minimum maximum : Int) :
    minimum ≤ clamp value minimum maximum :=
  le_max_left _ _

theorem applyActionOutcome_favorability (s : PlayerState) (ts a : String)
    (o : ActionOutcome) :
    (applyActionOutcome s ts a o).1.favorability
      = clamp (s.favorability + clamp o.favorability_delta (-20) 20) 0 200 := rfl

theorem applyActionOutcome_bounds (s : PlayerState) (ts a : String)
    (o : ActionOutcome) :
    0 ≤ (applyActionOutcome s ts a o).1.favorability ∧
      (applyActionOutcome s ts a o).1.favorability ≤ 200 := by
  rw [applyActionOutcome_favorability]
  exact ⟨le_clamp _ _ _, clamp_le _ _ _ (by norm_num)⟩

theorem runOutcomes_cons (s : PlayerState) (ts a : String) (o : ActionOutcome)
    (rest : List (String × String × ActionOutcome)) :
    runOutcomes s ((ts, a, o) :: rest)
      = runOutcomes (applyActionOutcome s ts a o).1 rest := rfl

theorem runOutcomes_bounds (inputs : List (String × String × ActionOutcome)) :
    ∀ s : PlayerState, inputs ≠ [] →
      0 ≤ (runOutcomes s inputs).favorability ∧
        (runOutcomes s inputs).favorability ≤ 200 := by
  induction inputs with
  | nil => intro s h; exact absurd rfl h
  | cons head rest ih =>
    intro s _
    obtain ⟨ts, a, o⟩ := head
    rw [runOutcomes_cons]
    rcases rest with _ | ⟨r2, rest2⟩
    · exact applyActionOutcome_bounds s ts a o
    · exact ih _ (by simp)

/- ### Claim C1 -/

/-- The stored state and raw engine outcome of the spec's boundary
scenario: favorability 195, raw engine delta 20. -/
def c1State : PlayerState := { favorability := 195, in_gal_mode := true }

/-- Outcome carrying the raw engine delta 20 used in the C1 scenario. -/
def c1Outcome : ActionOutcome :=
  ⟨"散步的叙述", 20, "positive", "提示", false⟩

/-- Claim C1 is false on the code: at favorability 195 with raw engine
delta 20, the new favorability is indeed 200, but the applied delta the
code returns (and the caller displays) is the clamped engine delta 20 —
not the recomputed difference `new - old = 5` the claim requires. -/
theorem claim_C1_counterexample :
    (applyActionOutcome c1State "t0" "散步" c1Outcome).1.favorability = 200 ∧
      (applyActionOutcome c1State "t0" "散步" c1Outcome).2 = 20 ∧
      (applyActionOutcome c1State "t0" "散步" c1Outcome).2
        ≠ (applyActionOutcome c1State "t0" "散步" c1Outcome).1.favorability
            - c1State.favorability := by
  refine ⟨rfl, rfl, ?_⟩
  decide

/-- Amended claim C1: applying an engine outcome reports as the applied
delta the engine delta clamped to `[-20, 20]` — with no stage bonus added
at apply time and with no recomputation of `new - old` — while the stored
favorability becomes `clamp(old + clampedDelta, 0, 200)`.  At the
boundary this reported delta can exceed the actual favorability change. -/
theorem claim_C1_theorem (s : PlayerState) (ts a : String) (o : ActionOutcome) :
    (applyActionOutcome s ts a o).2 = clamp o.favorability_delta (-20) 20 ∧
      (applyActionOutcome s ts a o).1.favorability
        = clamp (s.favorability + clamp o.favorability_delta (-20) 20) 0 200 :=
  ⟨rfl, rfl⟩

/- ### Claim C2 -/

/-- Claim C2: for every sequence of applied action outcomes with arbitrary
integer deltas, the stored favorability lies in `[0, 200]` after every
mutation — that is, after every non-empty prefix of the sequence. -/
theorem claim_C2_theorem (s : PlayerState)
    (inputs : List (String × String × ActionOutcome)) (k : Nat)
    (hk : k < inputs.length) :
    0 ≤ (runOutcomes s (inputs.take (k + 1))).favorability ∧
      (runOutcomes s (inputs.take (k + 1))).favorability ≤ 200 := by
  apply runOutcomes_bounds
  intro hempty
  have : (inputs.take (k + 1)).length = 0 := by rw [hempty]; rfl
  rw [List.length_take] at this
  omega

/-- Witness for C2: a two-step sequence whose deltas are far out of range
(+1000 then -1000) keeps favorability within bounds after the first step. -/
theorem claim_C2_witness :
    0 ≤ (runOutcomes {} ([("t1", "a1", ⟨"n", 1000, "positive", "f", false⟩),
        ("t2", "a2", ⟨"n", -1000, "negative", "f", false⟩)].take 1)).favorability ∧
      (runOutcomes {} ([("t1", "a1", ⟨"n", 1000, "positive", "f", false⟩),
        ("t2", "a2", ⟨"n", -1000, "negative", "f", false⟩)].take 1)).favorability ≤ 200 :=
  claim_C2_theorem {} _ 0 (by decide)

/- ### Claim C3 -/

theorem capHistory_length (h : List HistoryEntry) :
    (capHistory h).length ≤ 12 := by
  unfold capHistory takeLast
  split
  · rw [List.length_drop]
    unfold HISTORY_LIMIT
    omega
  · unfold HISTORY_LIMIT at *
    omega

theorem capHistory_append_of_lt (h : List HistoryEntry) (r : HistoryEntry)
    (hlen : h.length < 12) :
    capHistory (h ++ [r]) = h ++ [r] := by
  unfold capHistory
  rw [if_neg]
  rw [List.length_append]
  unfold HISTORY_LIMIT
  simp
  omega

theorem capHistory_append_of_eq (h : List HistoryEntry) (r : HistoryEntry)
    (hlen : h.length = 12) :
    capHistory (h ++ [r]) = h.tail ++ [r] := by
  cases h with
  | nil => simp at hlen
  | cons x xs =>
    unfold capHistory takeLast
    have hx : xs.length = 11 := by simpa using hlen
    rw [if_pos]
    · have hcons : (x :: xs) ++ [r] = x :: (xs ++ [r]) := rfl
      rw [hcons]
      have hlen2 : (x :: (xs ++ [r])).length = 13 := by
        simp [hx]
      rw [hlen2]
      unfold HISTORY_LIMIT
      norm_num
    · rw [List.length_append]
      unfold HISTORY_LIMIT
      simp [hlen]

theorem applyActionOutcome_history (s : PlayerState) (ts a : String)
    (o : ActionOutcome) :
    (applyActionOutcome s ts a o).1.history
      = capHistory (s.history
          ++ [actionRecord ts a o (clamp o.favorability_delta (-20) 20)]) := rfl

theorem recordIntimacySession_history (s : PlayerState) (ts narr hero : String) :
    (recordIntimacySession s ts narr hero).history
      = capHistory (s.history ++ [intimacyRecord ts narr hero]) := rfl

/-- Claim C3: after either history-appending mutation (applying an action
outcome, recording an intimacy session), the history holds at most 12
entries; starting from an in-bound history, the append keeps every old
entry when there is room and otherwise drops exactly the oldest entry
(FIFO), retaining the most recent ones. -/
theorem claim_C3_theorem (s : PlayerState) (ts a narr hero : String)
    (o : ActionOutcome) (hlen : s.history.length ≤ 12) :
    (applyActionOutcome s ts a o).1.history.length ≤ 12 ∧
      (recordIntimacySession s ts narr hero).history.length ≤ 12 ∧
      (applyActionOutcome s ts a o).1.history
        = (if s.history.length = 12 then s.history.tail else s.history)
            ++ [actionRecord ts a o (clamp o.favorability_delta (-20) 20)] ∧
      (recordIntimacySession s ts narr hero).history
        = (if s.history.length = 12 then s.history.tail else s.history)
            ++ [intimacyRecord ts narr hero] := by
  refine ⟨?_, ?_, ?_, ?_⟩
  · rw [applyActionOutcome_history]; exact capHistory_length _
  · rw [recordIntimacySession_history]; exact capHistory_length _
  · rw [applyActionOutcome_history]
    by_cases h12 : s.history.length = 12
    · rw [if_pos h12]; exact capHistory_append_of_eq _ _ h12
    · rw [if_neg h12]; exact capHistory_append_of_lt _ _ (by omega)
  · rw [recordIntimacySession_history]
    by_cases h12 : s.history.length = 12
    · rw [if_pos h12]; exact capHistory_append_of_eq _ _ h12
    · rw [if_neg h12]; exact capHistory_append_of_lt _ _ (by omega)

/-- A full 12-entry history used to exercise the FIFO eviction branch. -/
def c3Entry : HistoryEntry := ⟨"t", "a", "n", 1, "positive", "f"⟩

/-- A state whose history is already at the 12-entry bound. -/
def c3State : PlayerState := { history := List.replicate 12 c3Entry }

/-- Witness for C3: appending to a full 12-entry history stays at 12 and
drops the oldest entry. -/
theorem claim_C3_witness :
    (applyActionOutcome c3State "t2" "act" ⟨"n2", 3, "positive", "f2", false⟩).1.history.length ≤ 12 ∧
      (recordIntimacySession c3State "t2" "scene" "恋恋").history.length ≤ 12 ∧
      (applyActionOutcome c3State "t2" "act" ⟨"n2", 3, "positive", "f2", false⟩).1.history
        = (if c3State.history.length = 12 then c3State.history.tail else c3State.history)
            ++ [actionRecord "t2" "act" ⟨"n2", 3, "positive", "f2", false⟩
                  (clamp (3 : Int) (-20) 20)] ∧
      (recordIntimacySession c3State "t2" "scene" "恋恋").history
        = (if c3State.history.length = 12 then c3State.history.tail else c3State.history)
            ++ [intimacyRecord "t2" "scene" "恋恋"] :=
  claim_C3_theorem c3State "t2" "act" "scene" "恋恋" ⟨"n2", 3, "positive", "f2", false⟩
    (by decide)

/- ### Claim C4 -/

theorem latch_eq (u p : Bool) (v : Int) (hv : v ≤ 200) :
    (if (200 : Int) ≤ v then true else if p then true else u)
      = (u || p || decide (v = 200)) := by
  by_cases h : (200 : Int) ≤ v
  · have hveq : v = 200 := le_antisymm hv h
    simp [h, hveq]
  · have hvne : ¬ v = 200 := by omega
    simp [h, hvne]
    cases p <;> cases u <;> simp

theorem applyActionOutcome_unlocked (s : PlayerState) (ts a : String)
    (o : ActionOutcome) :
    (applyActionOutcome s ts a o).1.intimacy_unlocked
      = (if (200 : Int) ≤ (applyActionOutcome s ts a o).1.favorability then true
         else if s.pure_mode then true else s.intimacy_unlocked) := rfl

/-- Claim C4: `intimacy_unlocked` is a one-way latch.  Applying an action
outcome leaves it true exactly when it was already true, `pure_mode` is
set, or the new favorability reaches 200; every other mutation of the
live record (`galstart`, `galexit`, `galpure on`, `galpure off`) leaves
the flag untouched — in particular turning pure mode off does not clear
it; recording an intimacy session sets it; and only the full reset
produces the fresh default state in which it is false. -/
theorem claim_C4_theorem (s : PlayerState) (hero ts a narr : String)
    (o : ActionOutcome) :
    (applyActionOutcome s ts a o).1.intimacy_unlocked
        = (s.intimacy_unlocked || s.pure_mode
            || decide ((applyActionOutcome s ts a o).1.favorability = 200)) ∧
      (galStartMutate hero s).intimacy_unlocked = s.intimacy_unlocked ∧
      (galExitMutate s).intimacy_unlocked = s.intimacy_unlocked ∧
      (galPureOnMutate s).intimacy_unlocked = s.intimacy_unlocked ∧
      (galPureOffMutate s).intimacy_unlocked = s.intimacy_unlocked ∧
      (recordIntimacySession s ts narr hero).intimacy_unlocked = true ∧
      galResetState.intimacy_unlocked = false := by
  refine ⟨?_, ?_, ?_, ?_, ?_, rfl, rfl⟩
  · rw [applyActionOutcome_unlocked]
    exact latch_eq _ _ _ (applyActionOutcome_bounds s ts a o).2
  · unfold galStartMutate; split <;> rfl
  · unfold galExitMutate; split <;> rfl
  · rfl
  · rfl

/- ### The per-action pipeline (`_handle_action`) -/

/-- The configuration flags read by `_handle_action`:
`enable_ai_behavior`, provider resolvability, `enable_explicit_mode`. -/
structure ActionConfig where
  aiEnabled : Bool
  providerAvailable : Bool
  explicitEnabled : Bool
deriving DecidableEq, Repr

deriving instance DecidableEq for Except

/-- The results the two engines would return for this call.  The AI engine
can fail (`Except.error` carries the user-facing reason, including the
no-provider case); the Classic outcome path never fails.  `aiScene` is
what `AIBehaviorEngine.generate_intimacy_scene` returns with the provider
this call holds — in particular `.error` when that provider is `None`. -/
structure EngineResults where
  aiOutcome : Except String ActionOutcome
  classicOutcome : ActionOutcome
  aiScene : Except String String
  classicScene : Except String String
deriving DecidableEq, Repr

/-- `_choose_behavior_engine` with `prefer_ai=True` composed with the
outcome fallback of `_handle_action`: AI is used when enabled and a
provider resolves; an AI failure retries the Classic engine and marks
`fallback_used`. -/
def chooseOutcome (cfg : ActionConfig) (eng : EngineResults) : ActionOutcome × Bool :=
  if cfg.aiEnabled && cfg.providerAvailable then
    match eng.aiOutcome with
    | .ok o => (o, false)
    | .error _ => (eng.classicOutcome, true)
  else (eng.classicOutcome, false)

/-- `intimacy_engine = self._ai_engine if not fallback_used else
self._classic_engine` followed by that engine's scene call: the
per-action pipeline consults exactly one engine for the scene. -/
def sceneAttempt (fallbackUsed : Bool) (eng : EngineResults) : Except String String :=
  if fallbackUsed then eng.classicScene else eng.aiScene

/-- `should_trigger_intimacy` in `_handle_action`. -/
def shouldTriggerIntimacy (outcome : ActionOutcome) (s1 : PlayerState)
    (explicitEnabled : Bool) : Bool :=
  outcome.intimacy_signal
    && (s1.pure_mode || (s1.intimacy_unlocked && explicitEnabled))

/-- `auto_unlock` in `_handle_action`. -/
def autoUnlockCond (s1 : PlayerState) (explicitEnabled : Bool) : Bool :=
  !s1.pure_mode && s1.intimacy_unlocked && (s1.intimacy_sessions == 0)
    && explicitEnabled

/-- The observable result of one `_handle_action` call. -/
structure StepResult where
  state : PlayerState
  reportedDelta : Option Int
  fallbackUsed : Bool
  triggered : Bool
  autoUnlockFired : Bool
  sceneProduced : Bool
deriving DecidableEq, Repr

/-- `MoreMoreLovePlugin._handle_action` on one user: the mode gate, engine
choice with outcome fallback, state mutation via `_apply_action_outcome`,
the two intimacy-trigger conditions, the single scene attempt (no
fallback at this point), and session recording when a scene is produced. -/
def handleAction (cfg : ActionConfig) (eng : EngineResults)
    (ts actionText hero : String) (s : PlayerState) : StepResult :=
  if !s.in_gal_mode && !s.pure_mode then ⟨s, none, false, false, false, false⟩
  else
    let chosen := chooseOutcome cfg eng
    let applied := applyActionOutcome s ts actionText chosen.1
    let trigA := shouldTriggerIntimacy chosen.1 applied.1 cfg.explicitEnabled
    let auto := autoUnlockCond applied.1 cfg.explicitEnabled
    if trigA || auto then
      match sceneAttempt chosen.2 eng with
      | .ok text =>
          ⟨recordIntimacySession applied.1 ts text hero, some applied.2,
            chosen.2, true, auto, true⟩
      | .error _ => ⟨applied.1, some applied.2, chosen.2, true, auto, false⟩
    else ⟨applied.1, some applied.2, chosen.2, false, auto, false⟩

/-- The scene selection of the manual `galintimacy` command: the chosen
engine generates the scene, and an AI failure falls back to the Classic
engine (returning also whether the fallback was used). -/
def galIntimacyScene (engineIsAI : Bool) (aiScene classicScene : Except String String) :
    Except String String × Bool :=
  if engineIsAI then
    match aiScene with
    | .ok t => (.ok t, false)
    | .error _ => (classicScene, true)
  else (classicScene, false)

/-- One incoming action command of a run. -/
structure StepInput where
  cfg : ActionConfig
  eng : EngineResults
  timestamp : String
  actionText : String
  hero : String

/-- One pipeline step. -/
def stepOf (i : StepInput) (s : PlayerState) : StepResult :=
  handleAction i.cfg i.eng i.timestamp i.actionText i.hero s

/-- A run of action commands against one user's state, collecting each
step's observable result. -/
def runTrace (s : PlayerState) : List StepInput → List StepResult
  | [] => []
  | i :: is =>
    let r := stepOf i s
    r :: runTrace r.state is

/- ### Pipeline lemmas -/

theorem applyActionOutcome_sessions (s : PlayerState) (ts a : String)
    (o : ActionOutcome) :
    (applyActionOutcome s ts a o).1.intimacy_sessions = s.intimacy_sessions := rfl

theorem recordIntimacySession_sessions (s : PlayerState) (ts n h : String) :
    (recordIntimacySession s ts n h).intimacy_sessions
      = s.intimacy_sessions + 1 := rfl

/-- Every `_handle_action` call either leaves `intimacy_sessions` alone
(no scene produced) or increments it by one (scene produced and
recorded). -/
theorem stepOf_spec (i : StepInput) (s : PlayerState) :
    (stepOf i s).sceneProduced = false
        ∧ (stepOf i s).state.intimacy_sessions = s.intimacy_sessions
      ∨ (stepOf i s).sceneProduced = true
        ∧ (stepOf i s).state.intimacy_sessions = s.intimacy_sessions + 1 := by
  unfold stepOf handleAction
  split
  · left; exact ⟨rfl, rfl⟩
  · dsimp only
    split
    · split
      · right; exact ⟨rfl, rfl⟩
      · left; exact ⟨rfl, rfl⟩
    · left; exact ⟨rfl, rfl⟩

/-- The `autoUnlockFired` observable is either false or the literal
`auto_unlock` condition evaluated on the post-apply state. -/
theorem stepOf_auto_spec (i : StepInput) (s : PlayerState) :
    (stepOf i s).autoUnlockFired = false
      ∨ (stepOf i s).autoUnlockFired
          = autoUnlockCond
              (applyActionOutcome s i.timestamp i.actionText
                (chooseOutcome i.cfg i.eng).1).1
              i.cfg.explicitEnabled := by
  unfold stepOf handleAction
  split
  · left; rfl
  · dsimp only
    split
    · split
      · right; rfl
      · right; rfl
    · right; rfl

theorem stepOf_sessions_mono (i : StepInput) (s : PlayerState) :
    s.intimacy_sessions ≤ (stepOf i s).state.intimacy_sessions := by
  rcases stepOf_spec i s with ⟨_, h⟩ | ⟨_, h⟩ <;> omega

theorem stepOf_scene_sessions (i : StepInput) (s : PlayerState)
    (h : (stepOf i s).sceneProduced = true) :
    (stepOf i s).state.intimacy_sessions = s.intimacy_sessions + 1 := by
  rcases stepOf_spec i s with ⟨hfl, _⟩ | ⟨_, hs⟩
  · rw [h] at hfl; exact absurd hfl (by simp)
  · exact hs

theorem stepOf_auto_false (i : StepInput) (s : PlayerState)
    (h : 1 ≤ s.intimacy_sessions) :
    (stepOf i s).autoUnlockFired = false := by
  have hauto : autoUnlockCond
      (applyActionOutcome s i.timestamp i.actionText (chooseOutcome i.cfg i.eng).1).1
      i.cfg.explicitEnabled = false := by
    unfold autoUnlockCond
    rw [applyActionOutcome_sessions]
    have hne : (s.intimacy_sessions == 0) = false := by
      simp only [beq_eq_false_iff_ne]
      omega
    simp [hne]
  rcases stepOf_auto_spec i s with hf | hf
  · exact hf
  · rw [hf, hauto]

/-- The claim-C5 observable: a step on which the auto-unlock condition
fired and a scene was actually produced and recorded. -/
def autoScene (r : StepResult) : Bool := r.autoUnlockFired && r.sceneProduced

theorem runTrace_autoScene_zero (inputs : List StepInput) :
    ∀ s : PlayerState, 1 ≤ s.intimacy_sessions →
      List.countP autoScene (runTrace s inputs) = 0 := by
  induction inputs with
  | nil => intro s _; rfl
  | cons i is ih =>
    intro s hs
    unfold runTrace
    rw [List.countP_cons]
    have hfired : (stepOf i s).autoUnlockFired = false := stepOf_auto_false i s hs
    have hp : autoScene (stepOf i s) = false := by
      unfold autoScene; rw [hfired]; rfl
    have hmono := stepOf_sessions_mono i s
    have hrest := ih (stepOf i s).state (by omega)
    simp [hp, hrest]

theorem runTrace_autoScene_le_one (inputs : List StepInput) :
    ∀ s : PlayerState, List.countP autoScene (runTrace s inputs) ≤ 1 := by
  induction inputs with
  | nil => intro s; simp [runTrace]
  | cons i is ih =>
    intro s
    unfold runTrace
    rw [List.countP_cons]
    by_cases hp : autoScene (stepOf i s) = true
    · have hscene : (stepOf i s).sceneProduced = true := by
        unfold autoScene at hp
        exact (Bool.and_eq_true _ _).mp hp |>.2
      have hsess := stepOf_scene_sessions i s hscene
      have hzero := runTrace_autoScene_zero is (stepOf i s).state (by omega)
      rw [hzero, hp]
      simp
    · have hp' : autoScene (stepOf i s) = false := by
        cases hfl : autoScene (stepOf i s)
        · rfl
        · exact absurd hfl hp
      rw [hp']
      simpa using ih (stepOf i s).state

/- ### Claim C5 -/

/-- Configuration of the C5 run: AI enabled, provider available,
explicit mode enabled. -/
def c5Cfg : ActionConfig := ⟨true, true, true⟩

/-- Engine results of the C5 run: the AI outcome succeeds with raw delta
20 and no per-action intimacy signal, while AI intimacy-scene generation
fails; the Classic engine could supply a scene, but the pipeline never
asks it (no fallback occurred). -/
def c5Eng : EngineResults :=
  ⟨Except.ok ⟨"剧情", 20, "positive", "提示", false⟩,
    ⟨"经典剧情", 0, "neutral", "经典提示", false⟩,
    Except.error "模型连接失败", Except.ok "替补剧本"⟩

/-- Starting state of the C5 run: favorability 190, gal mode on. -/
def c5S0 : PlayerState := { favorability := 190, in_gal_mode := true }

/-- First action of the C5 run. -/
def c5R1 : StepResult := handleAction c5Cfg c5Eng "t1" "行动一" "恋恋" c5S0

/-- Second action of the C5 run. -/
def c5R2 : StepResult := handleAction c5Cfg c5Eng "t2" "行动二" "恋恋" c5R1.state

/-- Claim C5 is false on the code: with explicit mode enabled, the run
drives favorability from 190 to 200, the auto-unlock condition fires —
but the scene generation fails (here: the AI scene call errors), so no
scene is produced, `intimacy_sessions` stays 0, and the auto-unlock
condition fires again on the very next action. -/
theorem claim_C5_counterexample :
    c5S0.favorability = 190 ∧
      c5R1.state.favorability = 200 ∧
      c5R1.autoUnlockFired = true ∧
      c5R1.sceneProduced = false ∧
      c5R1.state.intimacy_sessions = 0 ∧
      c5R2.autoUnlockFired = true := by
  refine ⟨rfl, rfl, ?_, rfl, rfl, ?_⟩ <;> decide

/-- Amended claim C5: the auto-unlock announcement leads to at most one
*successful* auto-triggered intimacy scene per run: in every run, at most
one step both fires the auto-unlock condition and produces a scene; a
step that produces a scene increments `intimacy_sessions` by exactly one;
and once `intimacy_sessions` is positive the auto-unlock condition can
never fire again.  If scene generation fails at the firing step, however,
no session is recorded and the condition can fire again later. -/
theorem claim_C5_theorem (s : PlayerState) (inputs : List StepInput) (i : StepInput) :
    List.countP autoScene (runTrace s inputs) ≤ 1 ∧
      ((stepOf i s).sceneProduced = true →
        (stepOf i s).state.intimacy_sessions = s.intimacy_sessions + 1) ∧
      (1 ≤ s.intimacy_sessions → (stepOf i s).autoUnlockFired = false) :=
  ⟨runTrace_autoScene_le_one inputs s, stepOf_scene_sessions i s,
    stepOf_auto_false i s⟩

/-- State used by the C5 witness: unlocked, one session already recorded. -/
def c5WState : PlayerState :=
  { in_gal_mode := true, intimacy_unlocked := true, intimacy_sessions := 1 }

/-- Input used by the C5 witness: an AI outcome carrying the intimacy
signal and a successful AI scene. -/
def c5WInput : StepInput :=
  ⟨⟨true, true, true⟩,
    ⟨Except.ok ⟨"n", 1, "positive", "f", true⟩,
      ⟨"c", 0, "neutral", "cf", false⟩,
      Except.ok "亲密场景", Except.ok "经典场景"⟩,
    "t", "a", "恋恋"⟩

/-- Witness for C5 at a concrete run: the successful scene bumps the
session counter by one and the auto-unlock condition stays off. -/
theorem claim_C5_witness :
    List.countP autoScene (runTrace c5WState [c5WInput]) ≤ 1 ∧
      (stepOf c5WInput c5WState).state.intimacy_sessions
        = c5WState.intimacy_sessions + 1 ∧
      (stepOf c5WInput c5WState).autoUnlockFired = false :=
  ⟨(claim_C5_theorem c5WState [c5WInput] c5WInput).1,
    (claim_C5_theorem c5WState [c5WInput] c5WInput).2.1 (by decide),
    (claim_C5_theorem c5WState [c5WInput] c5WInput).2.2 (by decide)⟩

/- ### Claim C7 -/

/-- `Except` success test. -/
def exceptIsOk : Except String String → Bool
  | .ok _ => true
  | .error _ => false

theorem chooseOutcome_fallback (cfg : ActionConfig) (eng : EngineResults)
    (h : (chooseOutcome cfg eng).2 = true) :
    (cfg.aiEnabled && cfg.providerAvailable) = true
      ∧ ∃ msg, eng.aiOutcome = Except.error msg := by
  unfold chooseOutcome at h
  by_cases hai : (cfg.aiEnabled && cfg.providerAvailable) = true
  · rw [if_pos hai] at h
    cases heq : eng.aiOutcome with
    | ok o => rw [heq] at h; simp at h
    | error msg => exact ⟨hai, msg, rfl⟩
  · rw [if_neg hai] at h
    simp at h

theorem stepOf_fallback_spec (i : StepInput) (s : PlayerState) :
    (stepOf i s).fallbackUsed = false
      ∨ (stepOf i s).fallbackUsed = (chooseOutcome i.cfg i.eng).2 := by
  unfold stepOf handleAction
  split
  · left; rfl
  · dsimp only
    split
    · split
      · right; rfl
      · right; rfl
    · right; rfl

theorem stepOf_triggered_scene (i : StepInput) (s : PlayerState) :
    (stepOf i s).triggered = false
      ∨ (stepOf i s).sceneProduced
          = exceptIsOk (sceneAttempt (stepOf i s).fallbackUsed i.eng) := by
  unfold stepOf handleAction
  split
  · left; rfl
  · dsimp only
    split
    · cases hs : sceneAttempt (chooseOutcome i.cfg i.eng).2 i.eng with
      | ok t => right; simp [hs, exceptIsOk]
      | error e => right; simp [hs, exceptIsOk]
    · left; rfl

/-- Amended claim C7: the per-action pipeline uses for the intimacy scene
the same engine family as the outcome — Classic exactly when a fallback
already occurred this call (and a fallback happens only when AI was
selected and its outcome call failed) — but it has *no* independent
fallback for the scene: if the AI scene call fails and no outcome
fallback occurred, no scene is produced at all, even though the Classic
engine has one; only the manual `galintimacy` command falls back to the
Classic engine when the AI scene call fails. -/
theorem claim_C7_theorem (cfg : ActionConfig) (eng : EngineResults)
    (ts a hero : String) (s : PlayerState) (e c : String)
    (cs : Except String String) :
    ((handleAction cfg eng ts a hero s).fallbackUsed = true →
        (cfg.aiEnabled && cfg.providerAvailable) = true
          ∧ ∃ msg, eng.aiOutcome = Except.error msg) ∧
      ((handleAction cfg eng ts a hero s).triggered = true →
        (handleAction cfg eng ts a hero s).fallbackUsed = false →
        eng.aiScene = Except.error e →
        (handleAction cfg eng ts a hero s).sceneProduced = false) ∧
      ((handleAction cfg eng ts a hero s).triggered = true →
        (handleAction cfg eng ts a hero s).fallbackUsed = true →
        eng.classicScene = Except.ok c →
        (handleAction cfg eng ts a hero s).sceneProduced = true) ∧
      galIntimacyScene true (Except.error e) cs = (cs, true) := by
  have hstep : stepOf ⟨cfg, eng, ts, a, hero⟩ s = handleAction cfg eng ts a hero s := rfl
  refine ⟨?_, ?_, ?_, rfl⟩
  · intro hfb
    rcases stepOf_fallback_spec ⟨cfg, eng, ts, a, hero⟩ s with hf | hf
    · rw [hstep] at hf; rw [hfb] at hf; exact absurd hf (by simp)
    · rw [hstep, hfb] at hf
      exact chooseOutcome_fallback cfg eng hf.symm
  · intro htrig hfb hai
    rcases stepOf_triggered_scene ⟨cfg, eng, ts, a, hero⟩ s with hf | hf
    · rw [hstep, htrig] at hf; exact absurd hf (by simp)
    · rw [hstep, hfb] at hf
      rw [hf]
      unfold sceneAttempt
      rw [if_neg (by simp), hai]
      rfl
  · intro htrig hfb hcl
    rcases stepOf_triggered_scene ⟨cfg, eng, ts, a, hero⟩ s with hf | hf
    · rw [hstep, htrig] at hf; exact absurd hf (by simp)
    · rw [hstep, hfb] at hf
      rw [hf]
      unfold sceneAttempt
      rw [if_pos rfl, hcl]
      rfl

/-- State of the C7 counterexample: unlocked, sessions already positive
(so only the per-action signal triggers the scene). -/
def c7S : PlayerState :=
  { favorability := 100, in_gal_mode := true, intimacy_unlocked := true,
    intimacy_sessions := 5 }

/-- Engines of the C7 counterexample: AI outcome succeeds with the
intimacy signal set, the AI scene call fails, the Classic engine has a
scene available. -/
def c7Eng : EngineResults :=
  ⟨Except.ok ⟨"剧情", 1, "positive", "提示", true⟩,
    ⟨"经典剧情", 0, "neutral", "", false⟩,
    Except.error "模型拒绝", Except.ok "经典亲密剧本"⟩

/-- The C7 counterexample step. -/
def c7R : StepResult := handleAction ⟨true, true, true⟩ c7Eng "t" "行动" "恋恋" c7S

/-- Claim C7 is false on the code: in the per-action pipeline an intimacy
scene is triggered, no outcome fallback occurred, the AI scene call
fails — and the pipeline produces no scene at all instead of falling back
to the Classic engine, whose scene was available. -/
theorem claim_C7_counterexample :
    c7R.triggered = true ∧
      c7R.fallbackUsed = false ∧
      c7Eng.aiScene = Except.error "模型拒绝" ∧
      c7Eng.classicScene = Except.ok "经典亲密剧本" ∧
      c7R.sceneProduced = false := by
  refine ⟨?_, rfl, rfl, rfl, rfl⟩
  decide

/-- Inputs of the first C7 witness scenario: AI selected but its outcome
call fails, so the Classic engine supplies the outcome (fallback) and the
scene comes from the Classic engine. -/
def c7WEng1 : EngineResults :=
  ⟨Except.error "超时", ⟨"经典剧情", 2, "positive", "f", true⟩,
    Except.error "x", Except.ok "替补场景"⟩

/-- Inputs of the second C7 witness scenario: AI outcome succeeds, AI
scene fails, no fallback. -/
def c7WEng2 : EngineResults :=
  ⟨Except.ok ⟨"剧情", 1, "positive", "f", true⟩,
    ⟨"经典剧情", 0, "neutral", "", false⟩,
    Except.error "模型沉默", Except.ok "替补场景二"⟩

/-- State shared by both C7 witness scenarios. -/
def c7WS : PlayerState :=
  { favorability := 60, in_gal_mode := true, intimacy_unlocked := true,
    intimacy_sessions := 2 }

/-- Witness for C7 at concrete inputs: a fallback step really had a
failed AI outcome, its scene comes from the Classic engine, while the
no-fallback step with a failed AI scene produces nothing. -/
theorem claim_C7_witness :
    ((⟨true, true, true⟩ : ActionConfig).aiEnabled
        && (⟨true, true, true⟩ : ActionConfig).providerAvailable) = true ∧
      (∃ msg, c7WEng1.aiOutcome = Except.error msg) ∧
      (handleAction ⟨true, true, true⟩ c7WEng2 "t" "a" "h" c7WS).sceneProduced = false ∧
      (handleAction ⟨true, true, true⟩ c7WEng1 "t" "a" "h" c7WS).sceneProduced = true ∧
      galIntimacyScene true (Except.error "e") (Except.ok "c") = (Except.ok "c", true) := by
  have h1 := (claim_C7_theorem ⟨true, true, true⟩ c7WEng1 "t" "a" "h" c7WS "e" "替补场景"
    (Except.ok "c")).1 (by decide)
  have h2 := (claim_C7_theorem ⟨true, true, true⟩ c7WEng2 "t" "a" "h" c7WS "模型沉默" "c"
    (Except.ok "c")).2.1 (by decide) (by decide) rfl
  have h3 := (claim_C7_theorem ⟨true, true, true⟩ c7WEng1 "t" "a" "h" c7WS "e" "替补场景"
    (Except.ok "c")).2.2.1 (by decide) (by decide) rfl
  have h4 := (claim_C7_theorem ⟨true, true, true⟩ c7WEng1 "t" "a" "h" c7WS "e" "c"
    (Except.ok "c")).2.2.2
  exact ⟨h1.1, h1.2, h2, h3, h4⟩

/- ### Claim C6 -/

/-- Python's `str.strip()`: drop leading and trailing whitespace.
Implemented over the character list so that it evaluates by kernel
reduction. -/
def pyStrip (s : String) : String :=
  ⟨((s.data.dropWhile Char.isWhitespace).reverse.dropWhile
      Char.isWhitespace).reverse⟩

/-- The degraded payload `generate_action_outcome` builds when
`_extract_json` recovers nothing: the raw model text becomes the
narration, with neutral defaults. -/
def degradedPayload (raw : String) : ActionOutcome :=
  ⟨raw, 0, "neutral", "系统未能判定效果，本次好感度保持不变。", false⟩

/-- The field normalization applied to every payload: empty mood becomes
`neutral`, feedback is stripped (the `int`/`str`/`bool` coercions are
identities in this typed embedding). -/
def normalizePayload (p : ActionOutcome) : ActionOutcome :=
  { p with
      mood := if p.mood = "" then "neutral" else p.mood
      player_feedback := pyStrip p.player_feedback }

/-- The pure-mode override: force the intimacy signal and replace a zero
delta by the intensity-dependent default (6 soft / 8 strong). -/
def pureOverride (pureMode : Bool) (intensity : String) (p : ActionOutcome) :
    ActionOutcome :=
  if pureMode then
    { p with
        intimacy_signal := true
        favorability_delta :=
          if p.favorability_delta = 0 then (if intensity = "soft" then 6 else 8)
          else p.favorability_delta }
  else p

/-- `AIBehaviorEngine.generate_action_outcome` after the LLM call:
provider gate, hard error on call failure/empty response, JSON recovery
(modelled by the `extract` oracle standing for `_extract_json`), the
degraded payload on recovery failure, normalization, and the pure-mode
override. -/
def generateActionOutcomeAI (providerAvailable : Bool)
    (callResult : Except String String)
    (extract : String → Option ActionOutcome) (pureMode : Bool)
    (intensity : String) : Except String ActionOutcome :=
  if providerAvailable then
    match callResult with
    | .error e => .error e
    | .ok raw =>
      let payload := (extract raw).getD (degradedPayload raw)
      .ok (pureOverride pureMode intensity (normalizePayload payload))
  else .error "当前没有可用的 LLM 提供商。"

/-- Claim C6 is false as stated: with pure mode active, an unparseable
response still does not fail, but the returned outcome has favorability
delta 6 (soft intensity) and intimacy signal true — not delta 0 and
signal false as the claim requires for every such call. -/
theorem claim_C6_counterexample :
    generateActionOutcomeAI true (Except.ok "你好呀") (fun _ => none) true "soft"
        = Except.ok ⟨"你好呀", 6, "neutral",
            "系统未能判定效果，本次好感度保持不变。", true⟩ ∧
      (6 : Int) ≠ 0 ∧
      (generateActionOutcomeAI true (Except.ok "你好呀") (fun _ => none) true "soft"
        ≠ Except.ok ⟨"你好呀", 0, "neutral",
            "系统未能判定效果，本次好感度保持不变。", false⟩) := by
  refine ⟨by decide, by decide, by decide⟩

/-- Amended claim C6: when no JSON object is recoverable from the
response text, `generate_action_outcome` still succeeds; outside pure
mode the degraded outcome is exactly (raw text as narration, delta 0,
mood `neutral`, the generic feedback string, signal false), while in pure
mode the same degraded payload is further normalized to signal true and
delta 6 (soft) or 8 (strong).  An error is returned exactly when no
provider is supplied or the provider call failed or returned empty
text. -/
theorem claim_C6_theorem (raw : String) (extract : String → Option ActionOutcome)
    (intensity : String) (pv : Bool) (call : Except String String) (pm : Bool)
    (hx : extract raw = none) :
    (generateActionOutcomeAI true (Except.ok raw) extract false intensity
        = Except.ok ⟨raw, 0, "neutral",
            "系统未能判定效果，本次好感度保持不变。", false⟩) ∧
      (generateActionOutcomeAI true (Except.ok raw) extract true intensity
        = Except.ok ⟨raw, (if intensity = "soft" then 6 else 8), "neutral",
            "系统未能判定效果，本次好感度保持不变。", true⟩) ∧
      ((∃ err, generateActionOutcomeAI pv call extract pm intensity
          = Except.error err)
        ↔ (pv = false ∨ ∃ e, call = Except.error e)) := by
  have htrim : pyStrip "系统未能判定效果，本次好感度保持不变。"
      = "系统未能判定效果，本次好感度保持不变。" := by decide
  refine ⟨?_, ?_, ?_⟩
  · unfold generateActionOutcomeAI
    rw [if_pos rfl]
    dsimp only
    rw [hx]
    unfold degradedPayload normalizePayload pureOverride
    simp [htrim]
  · unfold generateActionOutcomeAI
    rw [if_pos rfl]
    dsimp only
    rw [hx]
    unfold degradedPayload normalizePayload pureOverride
    simp [htrim]
  · constructor
    · rintro ⟨err, herr⟩
      cases pv with
      | false => exact Or.inl rfl
      | true =>
        cases call with
        | error e => exact Or.inr ⟨e, rfl⟩
        | ok r =>
          unfold generateActionOutcomeAI at herr
          simp at herr
    · rintro (hpv | ⟨e, hce⟩)
      · subst hpv
        exact ⟨"当前没有可用的 LLM 提供商。", rfl⟩
      · subst hce
        cases pv with
        | false => exact ⟨"当前没有可用的 LLM 提供商。", rfl⟩
        | true => exact ⟨e, rfl⟩

/-- Witness for C6 at concrete inputs: an unparseable response yields the
exact degraded outcome in normal mode, its pure-mode normalization at
soft intensity, and the error characterization at a failed call. -/
theorem claim_C6_witness :
    (generateActionOutcomeAI true (Except.ok "模型输出") (fun _ => none) false "soft"
        = Except.ok ⟨"模型输出", 0, "neutral",
            "系统未能判定效果，本次好感度保持不变。", false⟩) ∧
      (generateActionOutcomeAI true (Except.ok "模型输出") (fun _ => none) true "soft"
        = Except.ok ⟨"模型输出", (if ("soft" : String) = "soft" then 6 else 8), "neutral",
            "系统未能判定效果，本次好感度保持不变。", true⟩) ∧
      ((∃ err, generateActionOutcomeAI false (Except.error "调用失败") (fun _ => none)
            false "soft" = Except.error err)
        ↔ (false = false ∨ ∃ e, (Except.error "调用失败" : Except String String)
            = Except.error e)) :=
  claim_C6_theorem "模型输出" (fun _ => none) "soft" false (Except.error "调用失败")
    false rfl

/- ### Claim C8 -/

/-- Address of a mutable history-entry dict in the Python heap. -/
abbrev Addr := Nat

/-- The mutable contents of one history-entry dict (the fields relevant
to observation; the remaining keys behave identically). -/
structure HistoryCell where
  action : String
  narration : String
  delta : Int
deriving DecidableEq, Repr

/-- A `PlayerState` as it lives in memory: scalar fields are immutable
Python values, but `history` holds *references* to mutable entry
dicts. -/
structure PlayerStateRef where
  favorability : Int
  in_gal_mode : Bool
  intimacy_unlocked : Bool
  intimacy_sessions : Nat
  last_action : Option String
  history : List Addr
  pure_mode : Bool
deriving DecidableEq, Repr

/-- Python's `list(xs)`: a fresh list object holding the same element
references. -/
def listCtor (l : List Addr) : List Addr := l.foldr List.cons []

/-- `PlayerState.copy` = `from_dict(to_dict())`: scalars are copied by
value; `to_dict` passes the history list through and `from_dict` wraps it
in `list(...)` — a fresh list whose elements are the *same* entry-dict
references. -/
def copyState (s : PlayerStateRef) : PlayerStateRef :=
  { s with history := listCtor s.history }

/-- In-place mutation of the entry dict at address `a`, e.g.
`entry["narration"] = ...` performed on an entry taken from a
snapshot. -/
def updateHeap (heap : Addr → HistoryCell) (a : Addr) (c : HistoryCell) :
    Addr → HistoryCell :=
  fun x => if x = a then c else heap x

/-- The history contents observed through a state's references. -/
def viewHistory (heap : Addr → HistoryCell) (s : PlayerStateRef) :
    List HistoryCell :=
  s.history.map heap

theorem listCtor_eq (l : List Addr) : listCtor l = l := by
  induction l with
  | nil => rfl
  | cons x xs ih =>
    unfold listCtor at *
    rw [List.foldr_cons, ih]

theorem map_updateHeap_ne (heap : Addr → HistoryCell) (a : Addr)
    (c : HistoryCell) (l : List Addr) (hmem : a ∈ l) (hne : heap a ≠ c) :
    l.map (updateHeap heap a c) ≠ l.map heap := by
  induction l with
  | nil => simp at hmem
  | cons x xs ih =>
    intro heq
    rw [List.map_cons, List.map_cons, List.cons.injEq] at heq
    rcases List.mem_cons.mp hmem with hx | hxs
    · subst hx
      have : updateHeap heap a c a = c := by unfold updateHeap; simp
      rw [this] at heq
      exact hne heq.1.symm
    · exact ih hxs heq.2

/-- The live record and heap of the C8 counterexample: one history entry
stored at address 0. -/
def c8Live : PlayerStateRef := ⟨50, true, false, 0, none, [0], false⟩

/-- Heap before the mutation. -/
def c8Heap0 : Addr → HistoryCell := fun _ => ⟨"晚餐", "原始叙述", 5⟩

/-- The snapshot `PlayerState.copy` hands to the caller. -/
def c8Snap : PlayerStateRef := copyState c8Live

/-- Heap after mutating, through the snapshot's history, the entry whose
reference the snapshot exposes. -/
def c8Heap1 : Addr → HistoryCell :=
  updateHeap c8Heap0 (c8Snap.history.headD 99) ⟨"晚餐", "被改写的叙述", 5⟩

/-- Claim C8 is false on the code: the snapshot's history holds the very
same entry references as the live record, so mutating one history entry
obtained from the snapshot changes what the live stored state's history
contains. -/
theorem claim_C8_counterexample :
    c8Snap.history = c8Live.history ∧
      viewHistory c8Heap1 c8Live ≠ viewHistory c8Heap0 c8Live := by
  refine ⟨rfl, ?_⟩
  decide

/-- Amended claim C8: the snapshot is independent in its scalar fields
and in the history *list* (a fresh list object), but it is a shallow
copy: the history entries are shared by reference, so any in-place
mutation of an entry reached through the snapshot (writing a genuinely
different value) is observed in the live stored state. -/
theorem claim_C8_theorem (s : PlayerStateRef) (heap : Addr → HistoryCell)
    (a : Addr) (c : HistoryCell) (hmem : a ∈ (copyState s).history)
    (hne : heap a ≠ c) :
    (copyState s).history = s.history ∧
      (copyState s).favorability = s.favorability ∧
      (copyState s).intimacy_unlocked = s.intimacy_unlocked ∧
      (copyState s).intimacy_sessions = s.intimacy_sessions ∧
      viewHistory (updateHeap heap a c) s ≠ viewHistory heap s := by
  have hshare : (copyState s).history = s.history := listCtor_eq s.history
  refine ⟨hshare, rfl, rfl, rfl, ?_⟩
  rw [hshare] at hmem
  exact map_updateHeap_ne heap a c s.history hmem hne

/-- Witness for C8: a concrete two-entry state whose snapshot shares both
entry references; rewriting the second entry through the snapshot is
visible in the live view. -/
theorem claim_C8_witness :
    (copyState ⟨60, true, true, 1, none, [4, 7], false⟩).history = [4, 7] ∧
      (copyState ⟨60, true, true, 1, none, [4, 7], false⟩).favorability = 60 ∧
      (copyState ⟨60, true, true, 1, none, [4, 7], false⟩).intimacy_unlocked = true ∧
      (copyState ⟨60, true, true, 1, none, [4, 7], false⟩).intimacy_sessions = 1 ∧
      viewHistory (updateHeap (fun _ => ⟨"a", "n", 1⟩) 7 ⟨"a", "改", 1⟩)
          ⟨60, true, true, 1, none, [4, 7], false⟩
        ≠ viewHistory (fun _ => ⟨"a", "n", 1⟩)
            ⟨60, true, true, 1, none, [4, 7], false⟩ :=
  claim_C8_theorem ⟨60, true, true, 1, none, [4, 7], false⟩ (fun _ => ⟨"a", "n", 1⟩)
    7 ⟨"a", "改", 1⟩ (by decide) (by decide)

/- ### Claim C9 -/

/-- Python's `str.lower()` over the character list. -/
def pyLower (s : String) : String := ⟨s.data.map Char.toLower⟩

/-- The `WeatherInfo` dataclass.  Temperatures are abstracted to integers
(the cache logic never inspects them); `updated_at` is a timestamp in
minutes. -/
structure WeatherInfo where
  location : String
  description : String
  temperature_c : Option Int
  feels_like_c : Option Int
  updated_at : Nat
deriving DecidableEq, Repr

/-- What `_fetch_weather` hands to `_parse_weather`: `failed` is the
`None` returned when the HTTP fetch raised, `malformed` is a payload
whose field extraction raises, `ok` is a well-formed payload. -/
inductive FetchResult where
  | failed
  | malformed
  | ok (description : String) (temp feelsLike : Int)
deriving DecidableEq, Repr

/-- `RealWorldWeatherSystem._parse_weather`: fetch failure and malformed
data are mapped to placeholder descriptions, never raised. -/
def parseWeather (location : String) (now : Nat) : FetchResult → WeatherInfo
  | .failed => ⟨location, "天气信息获取失败", none, none, now⟩
  | .malformed => ⟨location, "天气数据解析失败", none, none, now⟩
  | .ok d t f => ⟨location, d, some t, some f, now⟩

/-- `RealWorldWeatherSystem`: the per-location cache maps a lower-cased
location key to the entry time and the cached info. -/
structure WeatherSystem where
  defaultLocation : String
  refresh : Nat
  cache : String → Option (Nat × WeatherInfo)

/-- The constructor: strips the default location and clamps the refresh
window to at least 10 minutes; the cache starts empty. -/
def mkWeatherSystem (defaultLocation : String) (refreshMinutes : Nat) :
    WeatherSystem :=
  ⟨pyStrip defaultLocation, max refreshMinutes 10, fun _ => none⟩

/-- Python's `a or b or c` over strings (empty is falsy). -/
def firstNonEmpty (a b c : String) : String :=
  if a ≠ "" then a else if b ≠ "" then b else c

/-- `loc = (location or self._default_location or "Shanghai").strip()`. -/
def resolveLocation (sys : WeatherSystem) (location : Option String) : String :=
  pyStrip (firstNonEmpty (location.getD "") sys.defaultLocation "Shanghai")

/-- `self._cache[cache_key] = (now, info)`. -/
def updateCache (cache : String → Option (Nat × WeatherInfo)) (k : String)
    (v : Nat × WeatherInfo) : String → Option (Nat × WeatherInfo) :=
  fun x => if x = k then some v else cache x

/-- `RealWorldWeatherSystem.get_weather`: serve the cache while the entry
is younger than the refresh window; otherwise fetch, parse (mapping
failures to placeholder infos), store the result — whatever it is — in
the cache, and return it.  (The Python early-return on a fresh hit is
written here as the two fall-through branches sharing the miss path.) -/
def getWeather (sys : WeatherSystem) (location : Option String) (now : Nat)
    (fetch : FetchResult) : WeatherInfo × WeatherSystem :=
  match sys.cache (pyLower (resolveLocation sys location)) with
  | some entry =>
    if now - entry.1 < sys.refresh then (entry.2, sys)
    else
      (parseWeather (resolveLocation sys location) now fetch,
        { sys with
            cache := updateCache sys.cache (pyLower (resolveLocation sys location))
              (now, parseWeather (resolveLocation sys location) now fetch) })
  | none =>
    (parseWeather (resolveLocation sys location) now fetch,
      { sys with
          cache := updateCache sys.cache (pyLower (resolveLocation sys location))
            (now, parseWeather (resolveLocation sys location) now fetch) })

/-- The stale success entry cached in the C9 counterexample. -/
def c9Info : WeatherInfo := parseWeather "Shanghai" 0 (.ok "晴" 20 21)

/-- A weather system holding a stale successful result for Shanghai. -/
def c9Sys : WeatherSystem :=
  ⟨"Shanghai", 60, fun k => if k = "shanghai" then some (0, c9Info) else none⟩

/-- The lookup of the C9 counterexample: the cache entry is 120 minutes
old (window 60) and the fetch fails. -/
def c9Result : WeatherInfo × WeatherSystem := getWeather c9Sys none 120 .failed

/-- Claim C9 is false on the code: with a stale cached success present
and the fetch failing, `get_weather` does not serve the stale data — it
returns the failure placeholder and replaces the cached entry with that
failure value. -/
theorem claim_C9_counterexample :
    c9Info.description = "晴" ∧
      c9Result.1.description = "天气信息获取失败" ∧
      c9Result.1 ≠ c9Info ∧
      c9Result.2.cache "shanghai" = some (120, c9Result.1) := by
  refine ⟨rfl, rfl, by decide, by decide⟩

/-- Amended claim C9: a cached result (successful or not) is served — with
no fetch — only while its entry is younger than the refresh window; once
the window has passed, the new fetch's parsed result is returned and
overwrites the cache entry, and a failed fetch yields the placeholder
failure info (never an exception) rather than the stale cached data. -/
theorem claim_C9_theorem (sys : WeatherSystem) (location : Option String)
    (now t : Nat) (fetch : FetchResult) (info : WeatherInfo)
    (hc : sys.cache (pyLower (resolveLocation sys location)) = some (t, info)) :
    (now - t < sys.refresh → getWeather sys location now fetch = (info, sys)) ∧
      (¬ now - t < sys.refresh →
        (getWeather sys location now fetch).1
            = parseWeather (resolveLocation sys location) now fetch ∧
          (getWeather sys location now fetch).2.cache
              (pyLower (resolveLocation sys location))
            = some (now, parseWeather (resolveLocation sys location) now fetch)) ∧
      (parseWeather (resolveLocation sys location) now FetchResult.failed).description
        = "天气信息获取失败" := by
  refine ⟨?_, ?_, rfl⟩
  · intro hfresh
    unfold getWeather
    rw [hc]
    dsimp only
    rw [if_pos hfresh]
  · intro hstale
    unfold getWeather
    rw [hc]
    dsimp only
    rw [if_neg hstale]
    refine ⟨rfl, ?_⟩
    unfold updateCache
    simp

/-- The fresh success entry cached in the C9 witness. -/
def c9WInfo : WeatherInfo := parseWeather "Beijing" 10 (.ok "多云" 18 18)

/-- The weather system of the C9 witness. -/
def c9WSys : WeatherSystem :=
  ⟨"Beijing", 60, fun k => if k = "beijing" then some (10, c9WInfo) else none⟩

/-- Witness for C9: within the window the cached info is served untouched;
after the window a failed fetch's placeholder both returns and replaces
the entry. -/
theorem claim_C9_witness :
    (getWeather c9WSys none 30 .failed = (c9WInfo, c9WSys)) ∧
      ((getWeather c9WSys none 200 .failed).1
          = parseWeather (resolveLocation c9WSys none) 200 .failed ∧
        (getWeather c9WSys none 200 .failed).2.cache
            (pyLower (resolveLocation c9WSys none))
          = some (200, parseWeather (resolveLocation c9WSys none) 200 .failed)) :=
  ⟨(claim_C9_theorem c9WSys none 30 10 .failed c9WInfo (by decide)).1 (by decide),
    (claim_C9_theorem c9WSys none 200 10 .failed c9WInfo (by decide)).2.1 (by decide)⟩

/- ### Claim C10 -/

/-- Python's `f"{delta:+d}"`. -/
def fmtSigned (d : Int) : String :=
  if 0 ≤ d then "+" ++ toString d else toString d

/-- The segment text built from the loop variables `action`, `narration`
(stripped) and `delta`. -/
def excerptSegment (action narrationText : String) (delta : Int) : String :=
  "玩家行动：" ++ action ++ "\n角色回应：" ++ narrationText
    ++ "\n好感变化：" ++ fmtSigned delta

/-- `MoreMoreLovePlugin._history_excerpt`. The Python loop rebinds
`action` / `narration` / `delta` on each of the (up to 3) most recent
entries, but the single `segments.append(...)` sits *after* the loop
body, so only the bindings from the final iteration reach the output;
the fold mirrors that rebinding (its initial value is unreachable: the
loop always runs at least once on a non-empty history). -/
def historyExcerpt (history : List HistoryEntry) : String :=
  if history.isEmpty then "（暂无历史互动）"
  else
    let recent := takeLast 3 history
    let final := recent.foldl
      (fun _ item => (item.action, pyStrip item.narration, item.delta))
      ("", "", (0 : Int))
    String.intercalate "\n\n" [excerptSegment final.1 final.2.1 final.2.2]

theorem foldl_rebind_last {α β : Type} (g : α → β) :
    ∀ (l : List α) (init : β) (a : α), l.getLast? = some a →
      l.foldl (fun _ x => g x) init = g a := by
  intro l
  induction l with
  | nil => intro init a h; simp at h
  | cons x xs ih =>
    intro init a h
    cases xs with
    | nil =>
      simp at h
      subst h
      rfl
    | cons y ys =>
      rw [List.foldl_cons]
      exact ih _ a (by rwa [List.getLast?_cons_cons] at h)

theorem getLast?_drop_of_lt {α : Type} :
    ∀ (l : List α) (k : Nat), k < l.length → (l.drop k).getLast? = l.getLast? := by
  intro l
  induction l with
  | nil => intro k hk; simp at hk
  | cons x xs ih =>
    intro k hk
    cases k with
    | zero => rfl
    | succ n =>
      rw [List.drop_succ_cons]
      have hn : n < xs.length := by simpa using hk
      rw [ih n hn]
      cases xs with
      | nil => simp at hn
      | cons y ys => exact (List.getLast?_cons_cons).symm

theorem takeLast_getLast? {α : Type} (l : List α) (n : Nat) (hn : 0 < n)
    (hl : l ≠ []) :
    (takeLast n l).getLast? = l.getLast? := by
  unfold takeLast
  apply getLast?_drop_of_lt
  have : 0 < l.length := List.length_pos.mpr hl
  omega

/-- Claim C10: for every non-empty history, the excerpt assembled for AI
prompts is exactly one segment and it describes the most recent history
entry alone — regardless of how many entries (two, three, twelve) the
history holds. -/
theorem claim_C10_theorem (h : List HistoryEntry) (e : HistoryEntry)
    (hlast : h.getLast? = some e) :
    historyExcerpt h = excerptSegment e.action (pyStrip e.narration) e.delta := by
  have hne : h ≠ [] := by
    intro hh
    rw [hh] at hlast
    simp at hlast
  unfold historyExcerpt
  rw [if_neg (by simpa using hne)]
  dsimp only
  rw [foldl_rebind_last (fun item => (item.action, pyStrip item.narration, item.delta))
    (takeLast 3 h) _ e (by rw [takeLast_getLast? h 3 (by norm_num) hne]; exact hlast)]
  rfl

/-- Two distinct history entries for the C10 witness. -/
def c10E1 : HistoryEntry := ⟨"t1", "去公园", "第一段叙述", 3, "positive", "f1"⟩

/-- The most recent entry of the C10 witness history. -/
def c10E2 : HistoryEntry := ⟨"t2", "看电影", "第二段叙述", -2, "negative", "f2"⟩

/-- Witness for C10: with a two-entry history the excerpt is the single
segment describing the second (most recent) entry only. -/
theorem claim_C10_witness :
    historyExcerpt [c10E1, c10E2]
      = excerptSegment c10E2.action (pyStrip c10E2.narration) c10E2.delta :=
  claim_C10_theorem [c10E1, c10E2] c10E2 (by decide)

end MoreMoreLove
